import Mathlib

/-!
Verification of the Gails HTTP routing/dispatch core against its
natural-language specification.  The definitions below are a shallow
embedding of the Go source under `framework/` and `generator/`:

* `pluralize`, `singularize`  — generator/generator.go
* `singleName`                — framework/router.go
* `ResponseWriter`            — the net/http response sink as observed by this
                                code: the status line is committed by the first
                                WriteHeader (later calls are superfluous and
                                ignored), a Write with no committed status
                                commits 200, and header mutation after commit
                                has no effect on the sent headers
* `Context` and its writers   — framework/context.go
* `handleActionError`,
  `ActionHandler`             — framework/controller.go
* `Resources`, `dispatch`     — framework/router.go plus the go-chi matching
                                semantics for the registered patterns
* `CSRF`, `rateLimitStep`     — framework/middleware.go
* `parseStackTrace`,
  `DevErrorHandler`,
  `ProdErrorHandler`          — framework/errorpage.go
-/

set_option maxHeartbeats 1000000

namespace Gails

/-! ## Go string helpers

`goContains s sub` mirrors Go `strings.Contains(s, sub)`,
`goHasSuffix s suf` mirrors Go `strings.HasSuffix(s, suf)`, and
`goDropRight s n` mirrors the Go slice `s[:len(s)-n]` (the source only
applies it to ASCII identifiers, so byte and character indexing agree). -/

def goContains (s sub : String) : Bool :=
  s.toList.tails.any (fun t => sub.toList.isPrefixOf t)

def goHasSuffix (s suf : String) : Bool :=
  suf.toList.reverse.isPrefixOf s.toList.reverse

def goDropRight (s : String) (n : Nat) : String :=
  (s.toList.take (s.toList.length - n)).asString

/-- Go `strings.Split` for a one-character separator (the only shape the
embedded code uses: "\n", ":" and " "). -/
def splitChar (sep : Char) : List Char → List (List Char)
  | [] => [[]]
  | c :: rest =>
    let r := splitChar sep rest
    if c == sep then [] :: r
    else
      match r with
      | h :: t => (c :: h) :: t
      | [] => [[c]]

def goSplitOn (s : String) (sep : Char) : List String :=
  (splitChar sep s.toList).map List.asString

/-- Go `strings.TrimSpace` (the stack traces involved are ASCII, so trimming
the ASCII whitespace recognized by `Char.isWhitespace` coincides). -/
def goTrim (s : String) : String :=
  ((s.toList.dropWhile Char.isWhitespace).reverse.dropWhile
      Char.isWhitespace).reverse.asString

/-! ## Naming utility (generator/generator.go lines 357-378) -/

def pluralize (s : String) : String :=
  if goHasSuffix s "y" then goDropRight s 1 ++ "ies"
  else if goHasSuffix s "s" || goHasSuffix s "x" then s ++ "es"
  else s ++ "s"

def singularize (s : String) : String :=
  if goHasSuffix s "ies" then goDropRight s 3 ++ "y"
  else if goHasSuffix s "ses" || goHasSuffix s "xes" then goDropRight s 2
  else if goHasSuffix s "s" then goDropRight s 1
  else s

/-- `singleName` (framework/router.go lines 194-206); textually the same
heuristic as `singularize`, duplicated in the router source. -/
def singleName (name : String) : String :=
  if goHasSuffix name "ies" then goDropRight name 3 ++ "y"
  else if goHasSuffix name "ses" || goHasSuffix name "xes" then goDropRight name 2
  else if goHasSuffix name "s" then goDropRight name 1
  else name

/-! Helper lemmas: a one-character suffix is the last character, so a string
cannot simultaneously end in two distinct characters. -/

theorem isPrefixOf_single_ne {a b : Char} (hab : a ≠ b) {m : List Char}
    (h : List.isPrefixOf [a] m = true) : List.isPrefixOf [b] m = false := by
  cases m with
  | nil => simp [List.isPrefixOf] at h
  | cons c t =>
    simp only [List.isPrefixOf, Bool.and_true, beq_iff_eq, beq_eq_false_iff_ne] at h ⊢
    exact fun hb => hab (h.trans hb.symm)

theorem goHasSuffix_s_not_y {s : String} (h : goHasSuffix s "s" = true) :
    goHasSuffix s "y" = false := by
  have := isPrefixOf_single_ne (a := 's') (b := 'y') (by decide)
    (m := s.toList.reverse) h
  simpa [goHasSuffix] using this

theorem goHasSuffix_x_not_y {s : String} (h : goHasSuffix s "x" = true) :
    goHasSuffix s "y" = false := by
  have := isPrefixOf_single_ne (a := 'x') (b := 'y') (by decide)
    (m := s.toList.reverse) h
  simpa [goHasSuffix] using this

/-- C5: pluralization follows the stated heuristics (replace a trailing "y"
with "ies"; append "es" after a trailing "s" or "x"; otherwise append "s"),
and singularization reverses them on the regular nouns "cat", "box" and
"city": `singularize (pluralize w) = w` for each of the three. -/
theorem c5_theorem :
    (∀ s : String, goHasSuffix s "y" = true →
        pluralize s = goDropRight s 1 ++ "ies") ∧
    (∀ s : String, goHasSuffix s "s" = true ∨ goHasSuffix s "x" = true →
        pluralize s = s ++ "es") ∧
    (∀ s : String, goHasSuffix s "y" = false → goHasSuffix s "s" = false →
        goHasSuffix s "x" = false → pluralize s = s ++ "s") ∧
    singularize (pluralize "cat") = "cat" ∧
    singularize (pluralize "box") = "box" ∧
    singularize (pluralize "city") = "city" := by
  refine ⟨?_, ?_, ?_, by decide, by decide, by decide⟩
  · intro s h
    simp [pluralize, h]
  · intro s h
    rcases h with h | h
    · simp [pluralize, goHasSuffix_s_not_y h, h]
    · simp [pluralize, goHasSuffix_x_not_y h, h]
  · intro s h1 h2 h3
    simp [pluralize, h1, h2, h3]

/-- C5 witness: the heuristic theorem applied at the concrete noun "city". -/
theorem c5_witness : pluralize "city" = goDropRight "city" 1 ++ "ies" :=
  c5_theorem.1 "city" (by decide)

/-! ## Requests and the response sink

`Request` models the fields of `http.Request` that the embedded code reads.
The request body is either a well-formed object of string key/value pairs or
a value the decoder rejects (carrying the decoder's error message); this covers
malformed JSON and unparseable form data alike. -/

inductive Body where
  | jsonObj (kvs : List (String × String))
  | malformed (errMsg : String)
deriving DecidableEq

structure Request where
  method : String
  url : String
  path : List String
  contentType : String
  cookies : List (String × String)
  formValues : List (String × String)
  headers : List (String × String)
  remoteAddr : String
  body : Body
deriving DecidableEq

/-- A stack frame as produced by `parseStackTrace` (framework/errorpage.go).
The `Code` snippet field of the Go struct is filled by file-system reads and is
omitted from the model. -/
structure StackFrame where
  function : String
  file : String
  line : Nat
  isUser : Bool
deriving DecidableEq

/-- The data handed to the development error-page template
(framework/errorpage.go `ErrorPageData`; template-only cosmetic fields such as
the Go version are omitted). -/
structure ErrorPageData where
  errorType : String
  message : String
  file : String
  line : Nat
  stackTrace : List StackFrame
  requestMethod : String
  requestURL : String
deriving DecidableEq

/-- One chunk written to the response body.  JSON encoding and template
rendering are external collaborators, so an encoded value is represented by
the value itself rather than by its byte serialization. -/
inductive Chunk where
  | text (s : String)
  | jsonError (msg : String)
  | jsonErrors (errs : List (String × List String))
  | jsonValue (s : String)
  | rendered (tmpl : String)
  | redirectBody (url : String)
  | page (d : ErrorPageData)
deriving DecidableEq

/-- The `http.ResponseWriter` as net/http exposes it to this code: the first
`WriteHeader` commits the status line and later calls are superfluous no-ops;
a `Write` before any `WriteHeader` commits status 200; mutating the header map
after the status is committed has no effect on the sent headers. -/
structure ResponseWriter where
  committedStatus : Option Nat
  headers : List (String × String)
  body : List Chunk
deriving DecidableEq

def emptyWriter : ResponseWriter := { committedStatus := none, headers := [], body := [] }

def ResponseWriter.writeHeader (w : ResponseWriter) (code : Nat) : ResponseWriter :=
  match w.committedStatus with
  | some _ => w
  | none => { w with committedStatus := some code }

def ResponseWriter.write (w : ResponseWriter) (c : Chunk) : ResponseWriter :=
  match w.committedStatus with
  | some _ => { w with body := w.body ++ [c] }
  | none => { w with committedStatus := some 200, body := w.body ++ [c] }

/-- `Header().Set` before the status is committed; the newest binding shadows
older ones and is the one observed through `lookup`. -/
def ResponseWriter.setHeader (w : ResponseWriter) (k v : String) : ResponseWriter :=
  match w.committedStatus with
  | some _ => w
  | none => { w with headers := (k, v) :: w.headers }

/-- Go `http.Error(w, msg, code)`: plain-text content type, the status code,
and the message followed by a newline.  Note it does not touch the Context's
write-once flag. -/
def httpError (w : ResponseWriter) (msg : String) (code : Nat) : ResponseWriter :=
  let w := w.setHeader "Content-Type" "text/plain; charset=utf-8"
  let w := w.setHeader "X-Content-Type-Options" "nosniff"
  let w := w.writeHeader code
  w.write (Chunk.text (msg ++ "\n"))

/-! ## HTTPError and Context (framework/context.go) -/

/-- A handler failure: either a typed `*HTTPError` (code, message, optional
field-error map — `none` models the Go nil map) or a generic untyped error. -/
inductive GoError where
  | http (code : Nat) (message : String) (errors : Option (List (String × List String)))
  | generic (msg : String)
deriving DecidableEq

structure Context where
  response : ResponseWriter
  request : Request
  statusCode : Nat
  written : Bool
deriving DecidableEq

def NewContext (w : ResponseWriter) (r : Request) : Context :=
  { response := w, request := r, statusCode := 0, written := false }

def Context.isJSON (c : Context) : Bool :=
  goContains c.request.contentType "application/json"

/-- `Context.JSON` (context.go lines 132-138): sets the content type, writes the
header, records the status and the write-once flag, then encodes the value.
It performs no check of `written` before writing. -/
def Context.json (c : Context) (status : Nat) (v : Chunk) : Context :=
  let w := c.response.setHeader "Content-Type" "application/json"
  let w := w.writeHeader status
  let w := w.write v
  { c with response := w, statusCode := status, written := true }

/-- `Context.Render` (context.go lines 141-149), in the branch where the
renderer collaborator is present: it never calls `WriteHeader` itself; the
renderer's first write commits status 200. -/
def Context.render (c : Context) (tmpl : String) : Context :=
  let w := c.response.setHeader "Content-Type" "text/html; charset=utf-8"
  let w := w.write (Chunk.rendered tmpl)
  { c with response := w, statusCode := 200, written := true }

/-- `Context.Redirect` (context.go lines 152-156) via `http.Redirect` with
status 302: Location header, status, and a short hyperlink body for GET
requests.  It sets `written` but not `statusCode`. -/
def Context.redirect (c : Context) (url : String) : Context :=
  let w := c.response.setHeader "Location" url
  let w := w.writeHeader 302
  let w := if c.request.method == "GET" then w.write (Chunk.redirectBody url) else w
  { c with response := w, written := true }

/-- `Context.Status` (context.go lines 282-287): writes the header and records
status and the write-once flag, again without checking `written` first. -/
def Context.status (c : Context) (code : Nat) : Context :=
  { c with response := c.response.writeHeader code, statusCode := code, written := true }

/-! ## Action dispatch (framework/controller.go) -/

/-- `handleActionError` (controller.go lines 52-79): drop the failure if a
response was already written; otherwise a typed error is JSON-encoded when the
request negotiates JSON or the error's field map is non-nil, and plain text
otherwise; untyped errors map to 500. -/
def handleActionError (c : Context) (e : GoError) : Context :=
  if c.written then c
  else
    match e with
    | GoError.http code msg errs =>
      if c.isJSON || errs.isSome then
        c.json code
          (match errs with
           | some es => Chunk.jsonErrors es
           | none => Chunk.jsonError msg)
      else { c with response := httpError c.response msg code }
    | GoError.generic _ =>
      if c.isJSON then c.json 500 (Chunk.jsonError "Internal Server Error")
      else { c with response := httpError c.response "Internal Server Error" 500 }

/-- Outcome of invoking an action: a normal return (with an optional error
value) or a panic escaping the handler, carrying the response state at the
moment of the panic, the panic message and the captured stack text. -/
inductive ActionResult where
  | normal (c : Context) (e : Option GoError)
  | panicked (c : Context) (msg : String) (stack : String)

def Action := Context → ActionResult

/-! ## Error pages (framework/errorpage.go) -/

/-- `fmt.Sscanf(s, "%d", &n)`: reads the leading decimal digits, leaving 0 when
there are none. -/
def leadingNat (s : String) : Nat :=
  (s.toList.takeWhile Char.isDigit).foldl (fun n c => n * 10 + (c.toNat - 48)) 0

/-- The pair-walk of `parseStackTrace` (errorpage.go lines 77-112): lines are
consumed two at a time (function line, then file:line location); blank or
unparseable pairs are skipped; a frame is caller ("user") code when its file
path contains neither "runtime/" nor the framework package path. -/
def parseFrames : List String → List StackFrame
  | l1 :: l2 :: rest =>
    let t1 := goTrim l1
    let t2 := goTrim l2
    if t1 == "" || t2 == "" then parseFrames rest
    else
      let parts := goSplitOn t2 ':'
      if parts.length < 2 then parseFrames rest
      else
        let file := parts.headD ""
        let lineNum := leadingNat ((goSplitOn (parts.getD 1 "") ' ').headD "")
        { function := t1, file := file, line := lineNum,
          isUser := !(goContains file "runtime/") &&
                    !(goContains file "github.com/shaurya/gails/framework") }
          :: parseFrames rest
  | _ => []

def parseStackTrace (stack : String) : List StackFrame :=
  parseFrames ((goSplitOn stack '\n').drop 1)

/-- The `ErrorPageData` assembled by `DevErrorHandler` (errorpage.go lines
39-67).  The panic value is modelled as its message string, so Go's `%T` on it
is the constant "string". -/
def devPageData (r : Request) (errMsg stack : String) : ErrorPageData :=
  let frames := parseStackTrace stack
  { errorType := "string"
    message := errMsg
    file := match frames with | f :: _ => f.file | [] => ""
    line := match frames with | f :: _ => f.line | [] => 0
    stackTrace := frames
    requestMethod := r.method
    requestURL := r.url }

/-- `DevErrorHandler`: status 500 first, then a (too-late) content-type header,
then the rendered diagnostic page.  Template rendering is the external
collaborator; the page chunk carries the data fed to the template. -/
def DevErrorHandler (w : ResponseWriter) (r : Request) (errMsg stack : String) :
    ResponseWriter :=
  let w := w.writeHeader 500
  let w := w.setHeader "Content-Type" "text/html; charset=utf-8"
  w.write (Chunk.page (devPageData r errMsg stack))

/-- The fixed production error body (errorpage.go line 73). -/
def prodBody : String := "\x7b\"error\": \"Something went wrong\"\x7d"

/-- `ProdErrorHandler`: a terse constant JSON 500; the panic detail is only
logged server-side, never written to the response. -/
def ProdErrorHandler (w : ResponseWriter) (_r : Request) (_errMsg : String) :
    ResponseWriter :=
  let w := w.writeHeader 500
  let w := w.setHeader "Content-Type" "application/json"
  w.write (Chunk.text prodBody)

/-- `ActionHandler` (controller.go lines 29-49): build a Context, run the
action, map a returned error through `handleActionError`, and recover a panic
into the development or production error handler depending on the environment
flag. -/
def ActionHandler (action : Action) (env : String) (w : ResponseWriter)
    (r : Request) : ResponseWriter :=
  let ctx := NewContext w r
  match action ctx with
  | ActionResult.panicked c msg stack =>
    if env == "development" then DevErrorHandler c.response r msg stack
    else ProdErrorHandler c.response r msg
  | ActionResult.normal c none => c.response
  | ActionResult.normal c (some e) => (handleActionError c e).response

/-! ## Basic facts about the response sink -/

theorem setHeader_committedStatus (w : ResponseWriter) (k v : String) :
    (w.setHeader k v).committedStatus = w.committedStatus := by
  cases hw : w.committedStatus <;> simp [ResponseWriter.setHeader, hw]

theorem setHeader_body (w : ResponseWriter) (k v : String) :
    (w.setHeader k v).body = w.body := by
  cases hw : w.committedStatus <;> simp [ResponseWriter.setHeader, hw]

theorem writeHeader_committed (w : ResponseWriter) (code s0 : Nat)
    (h : w.committedStatus = some s0) :
    (w.writeHeader code).committedStatus = some s0 := by
  simp [ResponseWriter.writeHeader, h]

theorem writeHeader_body (w : ResponseWriter) (code : Nat) :
    (w.writeHeader code).body = w.body := by
  cases hw : w.committedStatus <;> simp [ResponseWriter.writeHeader, hw]

theorem write_committed (w : ResponseWriter) (c : Chunk) (s0 : Nat)
    (h : w.committedStatus = some s0) :
    (w.write c).committedStatus = some s0 := by
  simp [ResponseWriter.write, h]

theorem write_body (w : ResponseWriter) (c : Chunk) :
    (w.write c).body = w.body ++ [c] := by
  cases hw : w.committedStatus <;> simp [ResponseWriter.write, hw]

theorem handleActionError_written (c : Context) (e : GoError)
    (h : c.written = true) : handleActionError c e = c := by
  simp [handleActionError, h]

/-- A plain (non-JSON) request used for concrete evaluations. -/
def plainRequest : Request :=
  { method := "GET", url := "/", path := [], contentType := "text/html",
    cookies := [], formValues := [], headers := [],
    remoteAddr := "127.0.0.1", body := Body.jsonObj [] }

/-- C1 counterexample: starting from a fresh Context, `JSON 200` followed by a
second `JSON 404` call appends a second chunk to the body and overwrites the
Context's recorded status code — the second write is not a no-op, because no
writer checks the write-once flag before writing. -/
theorem c1_counterexample :
    ((NewContext emptyWriter plainRequest).json 200 (Chunk.jsonValue "first")).written = true ∧
    (((NewContext emptyWriter plainRequest).json 200 (Chunk.jsonValue "first")).json 404
        (Chunk.jsonValue "second")).response.body ≠
      ((NewContext emptyWriter plainRequest).json 200 (Chunk.jsonValue "first")).response.body ∧
    (((NewContext emptyWriter plainRequest).json 200 (Chunk.jsonValue "first")).json 404
        (Chunk.jsonValue "second")).statusCode ≠
      ((NewContext emptyWriter plainRequest).json 200 (Chunk.jsonValue "first")).statusCode := by
  decide

/-- C1 (amended): the writers do not check the write-once flag; each of JSON,
Render, Redirect and Status unconditionally writes and then sets the flag.  A
second write call leaves the already-committed wire status code unchanged
(the sink ignores superfluous status writes) but appends to the body, so it is
not a no-op; only the dispatcher's error path checks the flag and drops the
write when the flag is already set. -/
theorem c1_theorem :
    (∀ (c : Context) (s : Nat) (v : Chunk), (c.json s v).written = true) ∧
    (∀ (c : Context) (t : String), (c.render t).written = true) ∧
    (∀ (c : Context) (u : String), (c.redirect u).written = true) ∧
    (∀ (c : Context) (k : Nat), (c.status k).written = true) ∧
    (∀ (c : Context) (s : Nat) (v : Chunk) (s0 : Nat),
        c.response.committedStatus = some s0 →
        (c.json s v).response.committedStatus = some s0) ∧
    (∀ (c : Context) (k : Nat) (s0 : Nat),
        c.response.committedStatus = some s0 →
        (c.status k).response.committedStatus = some s0) ∧
    (∀ (c : Context) (s : Nat) (v : Chunk),
        (c.json s v).response.body = c.response.body ++ [v]) ∧
    (∀ (c : Context) (e : GoError), c.written = true → handleActionError c e = c) := by
  refine ⟨fun c s v => rfl, fun c t => rfl, fun c u => rfl, fun c k => rfl,
    ?_, ?_, ?_, fun c e h => handleActionError_written c e h⟩
  · intro c s v s0 h
    have h1 : (c.response.setHeader "Content-Type" "application/json").committedStatus
        = some s0 := (setHeader_committedStatus c.response _ _).trans h
    have h2 := writeHeader_committed _ s s0 h1
    simpa [Context.json] using write_committed _ v s0 h2
  · intro c k s0 h
    simpa [Context.status] using writeHeader_committed c.response k s0 h
  · intro c s v
    simp [Context.json, write_body, writeHeader_body, setHeader_body]

/-- A Context whose response has already been finalized. -/
def writtenCtx : Context :=
  { response := { committedStatus := some 200, headers := [],
                  body := [Chunk.jsonValue "x"] },
    request := plainRequest, statusCode := 200, written := true }

/-- C1 witness: the amended theorem applied at a concrete written Context. -/
theorem c1_witness :
    handleActionError writtenCtx (GoError.http 404 "nope" none) = writtenCtx ∧
    (writtenCtx.json 500 (Chunk.jsonValue "y")).response.committedStatus = some 200 :=
  ⟨c1_theorem.2.2.2.2.2.2.2 writtenCtx (GoError.http 404 "nope" none) rfl,
   c1_theorem.2.2.2.2.1 writtenCtx 500 (Chunk.jsonValue "y") 200 rfl⟩

theorem writeHeader_uncommitted (w : ResponseWriter) (code : Nat)
    (h : w.committedStatus = none) :
    (w.writeHeader code).committedStatus = some code := by
  simp [ResponseWriter.writeHeader, h]

theorem httpError_body (w : ResponseWriter) (msg : String) (code : Nat) :
    (httpError w msg code).body = w.body ++ [Chunk.text (msg ++ "\n")] := by
  simp [httpError, write_body, writeHeader_body, setHeader_body]

theorem httpError_committed (w : ResponseWriter) (msg : String) (code : Nat)
    (h : w.committedStatus = none) :
    (httpError w msg code).committedStatus = some code := by
  have h1 : ((w.setHeader "Content-Type" "text/plain; charset=utf-8").setHeader
      "X-Content-Type-Options" "nosniff").committedStatus = none :=
    ((setHeader_committedStatus _ _ _).trans ((setHeader_committedStatus _ _ _).trans h))
  simpa [httpError] using write_committed _ _ code (writeHeader_uncommitted _ code h1)

/-- A fresh Context over a non-JSON request, for concrete evaluations. -/
def plainCtx : Context := NewContext emptyWriter plainRequest

/-- C3 counterexample: the code tests the field-error map against nil, not
against emptiness.  For a non-JSON request and an `HTTPError` carrying a
non-nil but empty field-error map, the claim demands a plain-text body, yet
the dispatcher emits a JSON body. -/
theorem c3_counterexample :
    plainCtx.isJSON = false ∧
    (handleActionError plainCtx
        (GoError.http 422 "Validation failed" (some []))).response.body =
      [Chunk.jsonErrors []] ∧
    (handleActionError plainCtx
        (GoError.http 422 "Validation failed" (some []))).response.body ≠
      [Chunk.text ("Validation failed" ++ "\n")] := by
  decide

/-- C3 (amended): when a handler returns an HTTPError, the dispatcher drops it
if the Context's written flag is set; otherwise, if the request content-type is
JSON or the error carries a non-nil (possibly empty) field-error map, the
response is JSON — the field-error object when the map is non-nil, the error
message otherwise — with status equal to the error's code; otherwise the
response is a plain-text body with that status code. -/
theorem c3_theorem :
    (∀ (c : Context) (e : GoError), c.written = true → handleActionError c e = c) ∧
    (∀ (c : Context) (code : Nat) (msg : String)
        (errs : Option (List (String × List String))),
        c.written = false → (c.isJSON = true ∨ errs ≠ none) →
        c.response.committedStatus = none →
        (handleActionError c (GoError.http code msg errs)).response.committedStatus
            = some code ∧
        (handleActionError c (GoError.http code msg errs)).response.body
            = c.response.body ++
              [match errs with
               | some es => Chunk.jsonErrors es
               | none => Chunk.jsonError msg] ∧
        (handleActionError c (GoError.http code msg errs)).written = true ∧
        (handleActionError c (GoError.http code msg errs)).statusCode = code) ∧
    (∀ (c : Context) (code : Nat) (msg : String),
        c.written = false → c.isJSON = false →
        c.response.committedStatus = none →
        (handleActionError c (GoError.http code msg none)).response.body
            = c.response.body ++ [Chunk.text (msg ++ "\n")] ∧
        (handleActionError c (GoError.http code msg none)).response.committedStatus
            = some code) := by
  refine ⟨fun c e h => handleActionError_written c e h, ?_, ?_⟩
  · intro c code msg errs hw hj hc
    have h1 : (c.response.setHeader "Content-Type" "application/json").committedStatus
        = none := (setHeader_committedStatus _ _ _).trans hc
    cases errs with
    | none =>
      have hJ : c.isJSON = true := by
        rcases hj with h | h
        · exact h
        · exact absurd rfl h
      have hres : handleActionError c (GoError.http code msg none) =
          c.json code (Chunk.jsonError msg) := by
        simp [handleActionError, hw, hJ]
      rw [hres]
      refine ⟨?_, ?_, rfl, rfl⟩
      · simpa [Context.json] using
          write_committed _ _ code (writeHeader_uncommitted _ code h1)
      · simp [Context.json, write_body, writeHeader_body, setHeader_body]
    | some es =>
      have hres : handleActionError c (GoError.http code msg (some es)) =
          c.json code (Chunk.jsonErrors es) := by
        simp [handleActionError, hw]
      rw [hres]
      refine ⟨?_, ?_, rfl, rfl⟩
      · simpa [Context.json] using
          write_committed _ _ code (writeHeader_uncommitted _ code h1)
      · simp [Context.json, write_body, writeHeader_body, setHeader_body]
  · intro c code msg hw hj hc
    have hres : handleActionError c (GoError.http code msg none) =
        { c with response := httpError c.response msg code } := by
      simp [handleActionError, hw, hj]
    rw [hres]
    exact ⟨httpError_body c.response msg code, httpError_committed c.response msg code hc⟩

/-- A fresh Context over a JSON request, for concrete evaluations. -/
def jsonCtx : Context :=
  NewContext emptyWriter { plainRequest with contentType := "application/json" }

/-- C3 witness: the amended mapping applied at a concrete JSON request. -/
theorem c3_witness :
    (handleActionError jsonCtx (GoError.http 404 "missing" none)).response.committedStatus
        = some 404 ∧
    (handleActionError jsonCtx (GoError.http 404 "missing" none)).response.body
        = [Chunk.jsonError "missing"] := by
  have h := c3_theorem.2.1 jsonCtx 404 "missing" none rfl (Or.inl (by decide)) rfl
  exact ⟨h.1, by simpa using h.2.1⟩

/-! ## Router and chi matching (framework/router.go)

A registered pattern is a list of segments, literal or id-capturing.  `dispatch`
models the go-chi mux the router delegates to: a request 404s only when no
registered pattern matches the path; if a pattern matches the path but none for
the request's method, chi's default handler answers 405 Method Not Allowed.
A parameter segment captures any non-empty path segment.  chi prefers literal
segments over parameter captures; for the conventional resource routes the
registration order below (new and edit before the id-capturing patterns of the
same length) coincides with that preference, so first-match in registration
order reproduces chi's choice on these tables. -/

inductive Seg where
  | lit (s : String)
  | capture (name : String)
deriving DecidableEq

structure RouteInfo where
  method : String
  path : String
  handler : String
deriving DecidableEq

structure Route where
  method : String
  pattern : List Seg
  handler : String
deriving DecidableEq

def segMatch : Seg → String → Bool
  | Seg.lit s, x => s == x
  | Seg.capture _, x => x != ""

def patMatch : List Seg → List String → Bool
  | [], [] => true
  | p :: ps, x :: xs => segMatch p x && patMatch ps xs
  | _, _ => false

inductive Dispatch where
  | matched (handler : String)
  | methodNotAllowed
  | notFound
deriving DecidableEq

def dispatch (routes : List Route) (method : String) (path : List String) :
    Dispatch :=
  let pathMatches := routes.filter (fun rt => patMatch rt.pattern path)
  match pathMatches.find? (fun rt => rt.method == method) with
  | some rt => Dispatch.matched rt.handler
  | none => if pathMatches.isEmpty then Dispatch.notFound else Dispatch.methodNotAllowed

/-- The structural capability set of a controller: which of the seven
conventional actions the handler instance exposes (router.go detects each by a
type assertion against the expected method shape).  `ctrlName` stands for the
reflected type name used for the route-table label. -/
structure Caps where
  hasIndex : Bool
  hasCreate : Bool
  hasNew : Bool
  hasShow : Bool
  hasEdit : Bool
  hasUpdate : Bool
  hasDestroy : Bool
deriving DecidableEq

/-- The Router: the introspection table (`routes`, path strings accumulated
with the router's display path), the effective matchable table (`muxRoutes`,
full patterns as the mounted chi muxes resolve them), the display path of this
router and the mount point of its mux. -/
structure Router where
  routes : List RouteInfo
  muxRoutes : List Route
  basePath : String
  muxBase : List Seg
deriving DecidableEq

def Router.empty : Router :=
  { routes := [], muxRoutes := [], basePath := "", muxBase := [] }

def addEntry (r : Router) (method rel handler : String) (pat : List Seg) : Router :=
  { r with
    routes := r.routes ++ [{ method := method, path := r.basePath ++ rel, handler := handler }]
    muxRoutes := r.muxRoutes ++ [{ method := method, pattern := r.muxBase ++ pat, handler := handler }] }

/-- `Router.Resources` (router.go lines 101-168): derive the "/name" route
scope, register the conventional verb+path pair for each capability the
controller exposes, in the fixed order Index, Create, New, Show, Edit, Update
(PUT and PATCH), Destroy, and finally mount an optional nested router under
the id-capturing segment named after the singular of the resource.  The nested
router's display path is built from "/name" alone (the parent's own display
path is not prepended, exactly as in the source), while its mux is mounted
under the parent scope. -/
def Resources (r : Router) (name ctrlName : String) (caps : Caps)
    (nested : Option (Router → Router)) : Router :=
  let seg := "/" ++ name
  let base := [Seg.lit name]
  let r := if caps.hasIndex then
      addEntry r "GET" seg (ctrlName ++ "#Index") base else r
  let r := if caps.hasCreate then
      addEntry r "POST" seg (ctrlName ++ "#Create") base else r
  let r := if caps.hasNew then
      addEntry r "GET" (seg ++ "/new") (ctrlName ++ "#New") (base ++ [Seg.lit "new"]) else r
  let r := if caps.hasShow then
      addEntry r "GET" (seg ++ "/\x7bid\x7d") (ctrlName ++ "#Show") (base ++ [Seg.capture "id"]) else r
  let r := if caps.hasEdit then
      addEntry r "GET" (seg ++ "/\x7bid\x7d/edit") (ctrlName ++ "#Edit")
        (base ++ [Seg.capture "id", Seg.lit "edit"]) else r
  let r := if caps.hasUpdate then
      addEntry (addEntry r "PUT" (seg ++ "/\x7bid\x7d") (ctrlName ++ "#Update")
          (base ++ [Seg.capture "id"]))
        "PATCH" (seg ++ "/\x7bid\x7d") (ctrlName ++ "#Update")
        (base ++ [Seg.capture "id"]) else r
  let r := if caps.hasDestroy then
      addEntry r "DELETE" (seg ++ "/\x7bid\x7d") (ctrlName ++ "#Destroy")
        (base ++ [Seg.capture "id"]) else r
  match nested with
  | none => r
  | some fn =>
    let child : Router :=
      { routes := r.routes
        muxRoutes := []
        basePath := seg ++ "/\x7b" ++ singleName name ++ "_id\x7d"
        muxBase := r.muxBase ++ base ++ [Seg.capture (singleName name ++ "_id")] }
    let child := fn child
    { r with routes := child.routes, muxRoutes := r.muxRoutes ++ child.muxRoutes }

/-- A controller exposing only the Index and Show capabilities. -/
def idxShowCaps : Caps :=
  { hasIndex := true, hasCreate := false, hasNew := false, hasShow := true,
    hasEdit := false, hasUpdate := false, hasDestroy := false }

def widgetsRouter : Router :=
  Resources Router.empty "widgets" "WidgetsController" idxShowCaps none

/-- C2 counterexample: with only Index and Show registered, the absent
conventional actions do not all surface as 404 — `GET /widgets/new` is captured
by the Show route (id = "new"), and `POST /widgets` and `PUT /widgets/7` are
answered 405 Method Not Allowed because the path patterns exist for GET. -/
theorem c2_counterexample :
    dispatch widgetsRouter.muxRoutes "GET" ["widgets", "new"]
        = Dispatch.matched "WidgetsController#Show" ∧
    dispatch widgetsRouter.muxRoutes "GET" ["widgets", "new"] ≠ Dispatch.notFound ∧
    dispatch widgetsRouter.muxRoutes "POST" ["widgets"] ≠ Dispatch.notFound ∧
    dispatch widgetsRouter.muxRoutes "PUT" ["widgets", "7"] ≠ Dispatch.notFound := by
  decide

/-- C2 (amended): for a handler exposing only Index and Show, exactly those two
routes are registered, and `GET /widgets` and `GET /widgets/7` dispatch to
them.  The absent actions are not matchable as actions, but they do not all
yield 404: `POST /widgets` and `PUT /widgets/7` are rejected by the underlying
router as 405 Method Not Allowed (the paths exist for GET), and
`GET /widgets/new` matches the Show route with id = "new". -/
theorem c2_theorem :
    widgetsRouter.muxRoutes =
      [{ method := "GET", pattern := [Seg.lit "widgets"],
         handler := "WidgetsController#Index" },
       { method := "GET", pattern := [Seg.lit "widgets", Seg.capture "id"],
         handler := "WidgetsController#Show" }] ∧
    dispatch widgetsRouter.muxRoutes "GET" ["widgets"]
        = Dispatch.matched "WidgetsController#Index" ∧
    dispatch widgetsRouter.muxRoutes "GET" ["widgets", "7"]
        = Dispatch.matched "WidgetsController#Show" ∧
    dispatch widgetsRouter.muxRoutes "POST" ["widgets"]
        = Dispatch.methodNotAllowed ∧
    dispatch widgetsRouter.muxRoutes "GET" ["widgets", "new"]
        = Dispatch.matched "WidgetsController#Show" ∧
    dispatch widgetsRouter.muxRoutes "PUT" ["widgets", "7"]
        = Dispatch.methodNotAllowed := by
  decide

/-- A controller exposing only the Index capability. -/
def idxCaps : Caps :=
  { hasIndex := true, hasCreate := false, hasNew := false, hasShow := false,
    hasEdit := false, hasUpdate := false, hasDestroy := false }

def postsRouter : Router :=
  Resources Router.empty "posts" "PostsController" idxShowCaps
    (some (fun rt => Resources rt "comments" "CommentsController" idxCaps none))

/-- C4: registering resource "posts" with a nested callback registering
resource "comments" yields the route `GET /posts/{post_id}/comments`, both in
the introspection table and as a matchable route reachable with the concrete
path value `post_id = "123"`; the nested display path is the parent display
path (empty at top level) plus "/posts/{post_id}", built with
`singleName "posts" = "post"`. -/
theorem c4_theorem :
    ({ method := "GET", path := "/posts/\x7bpost_id\x7d/comments",
       handler := "CommentsController#Index" } : RouteInfo) ∈ postsRouter.routes ∧
    dispatch postsRouter.muxRoutes "GET" ["posts", "123", "comments"]
        = Dispatch.matched "CommentsController#Index" ∧
    singleName "posts" = "post" ∧
    "/posts/\x7bpost_id\x7d/comments" =
      Router.empty.basePath ++ "/" ++ "posts" ++ "/\x7b" ++ singleName "posts"
        ++ "_id\x7d" ++ "/comments" := by
  decide

/-! ## Request binding (framework/context.go lines 70-127)

`Bind` picks JSON decoding for JSON content types and the form round-trip
otherwise; in the model both decode a well-formed key/value body into the
target and surface the decoder's message on a malformed one.  The binding
target of the C6 scenario is a struct with an unconstrained Name field and an
Email field tagged required; the external validator's required tag fails on
the zero value, and Bind formats the message as
`Field + " is invalid (" + tag + ")"` when the tag has no parameter. -/

structure BindTarget where
  name : String
  email : String
deriving DecidableEq

def decodeTarget (kvs : List (String × String)) : BindTarget :=
  { name := (kvs.lookup "name").getD "", email := (kvs.lookup "email").getD "" }

def decodeOf (r : Request) : Except String BindTarget :=
  if goContains r.contentType "application/json" then
    match r.body with
    | Body.jsonObj kvs => Except.ok (decodeTarget kvs)
    | Body.malformed msg => Except.error msg
  else
    -- form path: values map → JSON → struct; same observable result
    match r.body with
    | Body.jsonObj kvs => Except.ok (decodeTarget kvs)
    | Body.malformed msg => Except.error msg

/-- Modelled from the external validator's required-tag semantics: a required
string field fails exactly when it decoded to the zero value. -/
def validateStruct (t : BindTarget) : List (String × List String) :=
  if t.email == "" then [("Email", ["Email is invalid (required)"])] else []

/-- `Context.Bind`: a decode failure becomes a 400 BadRequest carrying the
decoder's message and a nil field map; a validation failure after a successful
decode becomes a 422 UnprocessableEntity with the per-field messages. -/
def bindOutcome (r : Request) : Option GoError :=
  match decodeOf r with
  | Except.error msg => some (GoError.http 400 msg none)
  | Except.ok t =>
    match validateStruct t with
    | [] => none
    | errs => some (GoError.http 422 "Validation failed" (some errs))

/-- The conventional handler shape of the C6 scenario: bind, return the
binding error if any, otherwise run the handler body (which writes a 201). -/
def c6Handler : Action := fun ctx =>
  match bindOutcome ctx.request with
  | some e => ActionResult.normal ctx (some e)
  | none => ActionResult.normal (ctx.json 201 (Chunk.jsonValue "created")) none

def c6Request : Request :=
  { method := "POST", url := "/users", path := ["users"],
    contentType := "application/json", cookies := [], formValues := [],
    headers := [], remoteAddr := "1.2.3.4",
    body := Body.jsonObj [("name", "Ann")] }

/-- C6: binding `\x7b"name":"Ann"\x7d` against a target requiring Email yields a 422
UnprocessableEntity whose field map holds a non-empty message list under
"Email"; dispatching the request produces the 422 JSON response and the
handler body's write never happens. -/
theorem c6_theorem :
    bindOutcome c6Request =
      some (GoError.http 422 "Validation failed"
        (some [("Email", ["Email is invalid (required)"])])) ∧
    (ActionHandler c6Handler "production" emptyWriter c6Request).committedStatus
        = some 422 ∧
    (ActionHandler c6Handler "production" emptyWriter c6Request).body
        = [Chunk.jsonErrors [("Email", ["Email is invalid (required)"])]] ∧
    Chunk.jsonValue "created" ∉
      (ActionHandler c6Handler "production" emptyWriter c6Request).body := by
  decide

/-- C10: Bind distinguishes decode failures from validation failures.  Every
body the decoder rejects yields a 400 with the decoder's message and a nil
field map; an outcome with a non-nil field map is a 422 produced only after a
successful decode whose validation failed, and carries exactly the validator's
per-field messages. -/
theorem c10_theorem :
    (∀ (r : Request) (msg : String), r.body = Body.malformed msg →
        bindOutcome r = some (GoError.http 400 msg none)) ∧
    (∀ (r : Request) (code : Nat) (msg : String)
        (errs : Option (List (String × List String))),
        bindOutcome r = some (GoError.http code msg errs) → errs ≠ none →
        code = 422 ∧ msg = "Validation failed" ∧
        ∃ t, decodeOf r = Except.ok t ∧ errs = some (validateStruct t) ∧
          validateStruct t ≠ []) ∧
    (∀ (r : Request) (t : BindTarget), decodeOf r = Except.ok t →
        validateStruct t ≠ [] →
        bindOutcome r = some (GoError.http 422 "Validation failed"
          (some (validateStruct t)))) := by
  refine ⟨?_, ?_, ?_⟩
  · intro r msg h
    cases hc : goContains r.contentType "application/json" <;>
      simp [bindOutcome, decodeOf, hc, h]
  · intro r code msg errs hb hne
    cases hd : decodeOf r with
    | error m =>
      have hbo : bindOutcome r = some (GoError.http 400 m none) := by
        unfold bindOutcome; rw [hd]
      rw [hbo] at hb
      simp only [Option.some.injEq, GoError.http.injEq] at hb
      exact absurd hb.2.2.symm hne
    | ok t =>
      cases hv : validateStruct t with
      | nil =>
        have hbo : bindOutcome r = none := by
          unfold bindOutcome; rw [hd]; simp [hv]
        rw [hbo] at hb
        exact absurd hb (by simp)
      | cons e es =>
        have hbo : bindOutcome r =
            some (GoError.http 422 "Validation failed" (some (e :: es))) := by
          unfold bindOutcome; rw [hd]; simp [hv]
        rw [hbo] at hb
        simp only [Option.some.injEq, GoError.http.injEq] at hb
        obtain ⟨h1, h2, h3⟩ := hb
        refine ⟨h1.symm, h2.symm, t, rfl, ?_, ?_⟩
        · rw [hv]; exact h3.symm
        · rw [hv]; simp
  · intro r t hd hv
    cases hvv : validateStruct t with
    | nil => exact absurd hvv hv
    | cons e es =>
      unfold bindOutcome
      rw [hd]
      simp [hvv]

/-- C10 witness: a malformed body maps to a 400 with the decoder's message. -/
theorem c10_witness :
    bindOutcome { c6Request with
        body := Body.malformed "invalid character at offset 3" } =
      some (GoError.http 400 "invalid character at offset 3" none) :=
  c10_theorem.1 _ "invalid character at offset 3" rfl

/-! ## Panic recovery (controller.go lines 33-42, errorpage.go) -/

/-- A handler whose body panics before writing anything. -/
def panicAction (msg stack : String) : Action :=
  fun ctx => ActionResult.panicked ctx msg stack

/-- A captured stack in the `debug.Stack` layout: a goroutine header, then
function/location line pairs — here one caller frame and one framework
frame. -/
def sampleStack : String :=
  "goroutine 1 [running]:\nmain.(*WidgetsController).Show(0x0)\n\t/app/controllers/widgets_controller.go:42 +0x1a\ngithub.com/shaurya/gails/framework.ActionHandler.func1(0x0)\n\t/go/pkg/github.com/shaurya/gails/framework/controller.go:44 +0x2b\n"

/-- C7: a panic escaping a handler is recovered by the dispatcher's
per-request guard and yields exactly one response write.  In development the
single response is the diagnostic page carrying the fault message and — when
the captured stack has a caller frame — at least one frame marked as caller
(non-framework) code; in production the single response is a terse JSON 500
whose constant body is independent of the fault.  The last conjunct checks the
caller/framework classification on a concrete captured stack. -/
theorem c7_theorem :
    (∀ (req : Request) (msg stack : String),
        (parseStackTrace stack).any (fun f => f.isUser) = true →
        (ActionHandler (panicAction msg stack) "development" emptyWriter
            req).committedStatus = some 500 ∧
        (ActionHandler (panicAction msg stack) "development" emptyWriter
            req).body = [Chunk.page (devPageData req msg stack)] ∧
        (devPageData req msg stack).message = msg ∧
        (devPageData req msg stack).stackTrace.any (fun f => f.isUser) = true) ∧
    (∀ (req : Request) (msg stack : String),
        (ActionHandler (panicAction msg stack) "production" emptyWriter
            req).committedStatus = some 500 ∧
        (ActionHandler (panicAction msg stack) "production" emptyWriter
            req).body = [Chunk.text prodBody]) ∧
    (∀ (req : Request) (msg msg2 stack stack2 : String) (w : ResponseWriter),
        ActionHandler (panicAction msg stack) "production" w req =
          ActionHandler (panicAction msg2 stack2) "production" w req) ∧
    (parseStackTrace sampleStack).map (fun f => (f.file, f.isUser)) =
      [("/app/controllers/widgets_controller.go", true),
       ("/go/pkg/github.com/shaurya/gails/framework/controller.go", false)] := by
  refine ⟨?_, ?_, ?_, by decide⟩
  · intro req msg stack h
    refine ⟨?_, ?_, rfl, ?_⟩
    · simp [ActionHandler, panicAction, NewContext, DevErrorHandler, emptyWriter,
        ResponseWriter.writeHeader, ResponseWriter.setHeader, ResponseWriter.write]
    · simp [ActionHandler, panicAction, NewContext, DevErrorHandler, emptyWriter,
        ResponseWriter.writeHeader, ResponseWriter.setHeader, ResponseWriter.write]
    · simpa [devPageData] using h
  · intro req msg stack
    constructor <;>
      simp [ActionHandler, panicAction, NewContext, ProdErrorHandler, emptyWriter,
        ResponseWriter.writeHeader, ResponseWriter.setHeader, ResponseWriter.write]
  · intro req msg msg2 stack stack2 w
    rfl

/-- C7 witness: the development conjunct applied at the concrete captured
stack, whose caller frame is present. -/
theorem c7_witness :
    (ActionHandler (panicAction "boom" sampleStack) "development" emptyWriter
        plainRequest).committedStatus = some 500 ∧
    (devPageData plainRequest "boom" sampleStack).stackTrace.any
        (fun f => f.isUser) = true := by
  have h := c7_theorem.1 plainRequest "boom" sampleStack (by decide)
  exact ⟨h.1, h.2.2.2⟩

/-! ## CSRF middleware (framework/middleware.go lines 133-180)

The double-submit-cookie check.  `newTok` stands for the randomly generated
token (crypto/rand is external); the result pairs the response writer with the
request forwarded downstream (`some r`, unchanged) or `none` when the chain is
short-circuited. -/

def submittedToken (r : Request) : String :=
  let formToken := (r.formValues.lookup "csrf_token").getD ""
  if formToken == "" then (r.headers.lookup "X-CSRF-Token").getD "" else formToken

def CSRF (newTok : String) (r : Request) (w : ResponseWriter) :
    ResponseWriter × Option Request :=
  if goContains r.contentType "application/json" then (w, some r)
  else if r.method == "GET" || r.method == "HEAD" || r.method == "OPTIONS" then
    match r.cookies.lookup "csrf_token" with
    | some _ => (w, some r)
    | none => (w.setHeader "Set-Cookie" ("csrf_token=" ++ newTok), some r)
  else
    match r.cookies.lookup "csrf_token" with
    | none => (httpError w "CSRF token missing" 403, none)
    | some cv =>
      if submittedToken r != cv then (httpError w "CSRF token invalid" 403, none)
      else (w, some r)

/-- C8: a request whose content type indicates JSON bypasses CSRF validation
completely and is forwarded unchanged — even an unsafe method with no cookie.
For non-JSON unsafe methods: a missing cookie is a 403, a submitted token
(form field, falling back to the X-CSRF-Token header) equal to the cookie
passes, and a mismatch is a 403. -/
theorem c8_theorem :
    (∀ (tok : String) (r : Request) (w : ResponseWriter),
        goContains r.contentType "application/json" = true →
        CSRF tok r w = (w, some r)) ∧
    (∀ (tok : String) (r : Request) (w : ResponseWriter),
        goContains r.contentType "application/json" = false →
        (r.method == "GET" || r.method == "HEAD" || r.method == "OPTIONS") = false →
        r.cookies.lookup "csrf_token" = none → w.committedStatus = none →
        (CSRF tok r w).2 = none ∧
        (CSRF tok r w).1.committedStatus = some 403) ∧
    (∀ (tok : String) (r : Request) (w : ResponseWriter) (cv : String),
        goContains r.contentType "application/json" = false →
        (r.method == "GET" || r.method == "HEAD" || r.method == "OPTIONS") = false →
        r.cookies.lookup "csrf_token" = some cv → submittedToken r = cv →
        CSRF tok r w = (w, some r)) ∧
    (∀ (tok : String) (r : Request) (w : ResponseWriter) (cv : String),
        goContains r.contentType "application/json" = false →
        (r.method == "GET" || r.method == "HEAD" || r.method == "OPTIONS") = false →
        r.cookies.lookup "csrf_token" = some cv → submittedToken r ≠ cv →
        w.committedStatus = none →
        (CSRF tok r w).2 = none ∧
        (CSRF tok r w).1.committedStatus = some 403) := by
  refine ⟨?_, ?_, ?_, ?_⟩
  · intro tok r w h
    simp [CSRF, h]
  · intro tok r w hj hm hc hw
    refine ⟨?_, ?_⟩ <;>
      simp [CSRF, hj, hm, hc, httpError_committed _ _ _ hw]
  · intro tok r w cv hj hm hc ht
    simp [CSRF, hj, hm, hc, ht]
  · intro tok r w cv hj hm hc ht hw
    refine ⟨?_, ?_⟩ <;>
      simp [CSRF, hj, hm, hc, ht, httpError_committed _ _ _ hw]

/-- A JSON POST request carrying no CSRF cookie at all. -/
def jsonPost : Request :=
  { method := "POST", url := "/widgets", path := ["widgets"],
    contentType := "application/json", cookies := [], formValues := [],
    headers := [], remoteAddr := "9.9.9.9", body := Body.jsonObj [] }

/-- C8 witness: the JSON bypass applied at a concrete cookie-less POST. -/
theorem c8_witness : CSRF "tok123" jsonPost emptyWriter = (emptyWriter, some jsonPost) :=
  c8_theorem.1 "tok123" jsonPost emptyWriter (by decide)

/-! ## Rate limiting (framework/middleware.go lines 222-262)

The process-local fallback limiter: a map from client address to the
timestamps of its requests inside the sliding window.  Time is modelled in
whole seconds (the claim's window is one second); the Retry-After value is the
window length in seconds, as in the source. -/

theorem writeHeader_headers (w : ResponseWriter) (code : Nat) :
    (w.writeHeader code).headers = w.headers := by
  cases hw : w.committedStatus <;> simp [ResponseWriter.writeHeader, hw]

theorem write_headers (w : ResponseWriter) (c : Chunk) :
    (w.write c).headers = w.headers := by
  cases hw : w.committedStatus <;> simp [ResponseWriter.write, hw]

theorem setHeader_headers_uncommitted (w : ResponseWriter) (k v : String)
    (h : w.committedStatus = none) :
    (w.setHeader k v).headers = (k, v) :: w.headers := by
  simp [ResponseWriter.setHeader, h]

/-- One request through the in-memory limiter: drop expired entries for this
client address (strictly older than `now - window`), append the current
timestamp, store the updated list, then reject with 429 when the count
exceeds the limit.  The returned Bool is whether the request was passed
downstream. -/
def rateLimitStep (limit : Nat) (window : Int)
    (counts : List (String × List Int)) (ip : String) (now : Int)
    (w : ResponseWriter) :
    List (String × List Int) × ResponseWriter × Bool :=
  let cutoff := now - window
  let valid := (((counts.lookup ip).getD []).filter (fun t => t > cutoff)) ++ [now]
  let counts2 := (ip, valid) :: counts.filter (fun p => p.1 != ip)
  if valid.length > limit then
    (counts2,
     ((w.setHeader "Retry-After" (toString window)).writeHeader 429).write
       (Chunk.text "Rate limit exceeded"),
     false)
  else (counts2, w, true)

theorem lookup_filter_ne (m : List (String × List Int)) (k k2 : String)
    (h : k ≠ k2) :
    (m.filter (fun p => p.1 != k2)).lookup k = m.lookup k := by
  induction m with
  | nil => rfl
  | cons a t ih =>
    obtain ⟨a1, av⟩ := a
    by_cases ha : a1 = k2
    · subst ha
      have hk : (k == a1) = false := beq_eq_false_iff_ne.mpr h
      simp [List.filter_cons, List.lookup, hk, ih]
    · have hne : (a1 != k2) = true := bne_iff_ne.mpr ha
      by_cases hk : k = a1
      · subst hk
        simp [List.filter_cons, hne, List.lookup]
      · have hk2 : (k == a1) = false := beq_eq_false_iff_ne.mpr hk
        simp [List.filter_cons, hne, List.lookup, hk2, ih]

/-- C9: with limit 5 and window 1 second, a request from a client address that
already has five live timestamps in the window is answered 429 with a
Retry-After header and is not passed downstream; a request from an address
with fewer than five live timestamps passes with the writer untouched; the
decision depends only on the requesting address's own entry, and a step for
one address leaves every other address's entry unchanged. -/
theorem c9_theorem :
    (∀ (counts : List (String × List Int)) (ip : String) (now : Int)
        (w : ResponseWriter),
        5 ≤ (((counts.lookup ip).getD []).filter (fun t => t > now - 1)).length →
        w.committedStatus = none →
        (rateLimitStep 5 1 counts ip now w).2.2 = false ∧
        (rateLimitStep 5 1 counts ip now w).2.1.committedStatus = some 429 ∧
        (rateLimitStep 5 1 counts ip now w).2.1.headers.lookup "Retry-After"
            = some "1") ∧
    (∀ (counts : List (String × List Int)) (ip : String) (now : Int)
        (w : ResponseWriter),
        (((counts.lookup ip).getD []).filter (fun t => t > now - 1)).length < 5 →
        (rateLimitStep 5 1 counts ip now w).2.1 = w ∧
        (rateLimitStep 5 1 counts ip now w).2.2 = true) ∧
    (∀ (c1 c2 : List (String × List Int)) (ip : String) (now : Int)
        (w : ResponseWriter),
        c1.lookup ip = c2.lookup ip →
        (rateLimitStep 5 1 c1 ip now w).2 = (rateLimitStep 5 1 c2 ip now w).2) ∧
    (∀ (counts : List (String × List Int)) (ip1 ip2 : String) (now : Int)
        (w : ResponseWriter), ip2 ≠ ip1 →
        ((rateLimitStep 5 1 counts ip1 now w).1).lookup ip2 = counts.lookup ip2) := by
  refine ⟨?_, ?_, ?_, ?_⟩
  · intro counts ip now w h hw
    have hcond : ((((counts.lookup ip).getD []).filter (fun t => t > now - 1))
        ++ [now]).length > 5 := by
      simp only [List.length_append, List.length_singleton]
      omega
    refine ⟨?_, ?_, ?_⟩
    · simp only [rateLimitStep]
      rw [if_pos hcond]
    · simp only [rateLimitStep]
      rw [if_pos hcond]
      have h1 : ((w.setHeader "Retry-After" (toString (1 : Int))).committedStatus)
          = none := (setHeader_committedStatus _ _ _).trans hw
      exact write_committed _ _ 429 (writeHeader_uncommitted _ 429 h1)
    · simp only [rateLimitStep]
      rw [if_pos hcond]
      rw [write_headers, writeHeader_headers, setHeader_headers_uncommitted _ _ _ hw]
      simp [List.lookup]
      decide
  · intro counts ip now w h
    have hcond : ¬(((((counts.lookup ip).getD []).filter (fun t => t > now - 1))
        ++ [now]).length > 5) := by
      simp only [List.length_append, List.length_singleton]
      omega
    constructor <;> (simp only [rateLimitStep]; rw [if_neg hcond])
  · intro c1 c2 ip now w h
    simp only [rateLimitStep, h]
    by_cases hc : ((((c2.lookup ip).getD []).filter (fun t => t > now - 1))
        ++ [now]).length > 5
    · rw [if_pos hc, if_pos hc]
    · rw [if_neg hc, if_neg hc]
  · intro counts ip1 ip2 now w h
    have hk : (ip2 == ip1) = false := beq_eq_false_iff_ne.mpr h
    by_cases hc : ((((counts.lookup ip1).getD []).filter
        (fun t => t > now - 1)) ++ [now]).length > 5
    · simp only [rateLimitStep]
      rw [if_pos hc]
      simp only [List.lookup, hk, cond_false]
      exact lookup_filter_ne counts ip2 ip1 h
    · simp only [rateLimitStep]
      rw [if_neg hc]
      simp only [List.lookup, hk, cond_false]
      exact lookup_filter_ne counts ip2 ip1 h

/-- Five timestamps already recorded for one address at time 10. -/
def counts0 : List (String × List Int) := [("1.2.3.4", [10, 10, 10, 10, 10])]

/-- C9 witness: the sixth request inside the window from the saturated address
is rejected 429 with Retry-After, while a request from a fresh address
passes. -/
theorem c9_witness :
    (rateLimitStep 5 1 counts0 "1.2.3.4" 10 emptyWriter).2.2 = false ∧
    (rateLimitStep 5 1 counts0 "1.2.3.4" 10 emptyWriter).2.1.headers.lookup
        "Retry-After" = some "1" ∧
    (rateLimitStep 5 1 counts0 "5.6.7.8" 10 emptyWriter).2.2 = true := by
  have h1 := c9_theorem.1 counts0 "1.2.3.4" 10 emptyWriter (by decide) rfl
  have h2 := c9_theorem.2.1 counts0 "5.6.7.8" 10 emptyWriter (by decide)
  exact ⟨h1.1, h1.2.2, h2.2⟩

end Gails
